import Mathlib

/-!
# Photon: vector extension and ray evaluation

A shallow embedding of `src/vec.c`, `src/ray_3d.c` and the two `_ray?D_at`
macros of `photon.h`.

The C code computes on `float`.  Two arithmetics are used here:

* exact arithmetic: a `float` is an element of an arbitrary linearly ordered
  field `α` (so a statement holds over the reals, and a definition can be run
  over the rationals); rounding, overflow, infinities and NaN do not occur;
* single-precision arithmetic: a `float` is a value of `F32`, the IEEE-754
  binary32 format with round-to-nearest-even, gradual underflow, overflow to an
  infinity, and NaN.

A theorem is about exact arithmetic unless its statement mentions `F32`.
-/

namespace Photon

/-! ## Value types (`fract.h`, `photon.h`) -/

/-- Two floats `x, y`, the `vec2` of `fract.h`. -/
structure vec2 (α : Type) where
  x : α
  y : α
deriving DecidableEq, Repr

/-- Three floats `x, y, z`, the `vec3` of `fract.h`. -/
structure vec3 (α : Type) where
  x : α
  y : α
  z : α
deriving DecidableEq, Repr

/-- The `Ray2D` struct of `photon.h`. -/
structure Ray2D (α : Type) where
  orig : vec2 α
  dir : vec2 α
deriving DecidableEq, Repr

/-- The `Ray3D` struct of `photon.h`. -/
structure Ray3D (α : Type) where
  orig : vec3 α
  dir : vec3 α
deriving DecidableEq, Repr

/-! ## Code on an arbitrary arithmetic

`vec3_refract`, the helpers of `fract.h`, `ray3D_at` and the two macros use only
the operations the C code uses (`+`, `-`, `*`, the constants `0` and `1`, the
comparison `>`), so the same definition can be read in exact arithmetic (a
linearly ordered field) and in single-precision arithmetic (`F32` below).  The
two reflections are defined for exact arithmetic. -/

section Helpers

variable {α : Type} [Add α] [Mul α]

/-! ## Helpers of `fract.h` used by the sources -/

/-- Modelled from the spec: the macro `_vec2_dot` of `fract.h` (not part of the
sources), the dot product `a·b` of two 2D vectors. -/
def _vec2_dot (a b : vec2 α) : α :=
  a.x * b.x + a.y * b.y

/-- Modelled from the spec: the macro `_vec3_dot` of `fract.h` (not part of the
sources), the dot product `a·b` of two 3D vectors. -/
def _vec3_dot (a b : vec3 α) : α :=
  a.x * b.x + a.y * b.y + a.z * b.z

/-- Modelled from the spec: `vec3_add` of `fract.h` (not part of the sources),
the componentwise sum `a + b`. -/
def vec3_add (a b : vec3 α) : vec3 α :=
  ⟨a.x + b.x, a.y + b.y, a.z + b.z⟩

end Helpers

/-- Modelled from the spec: `vec3_sub` of `fract.h` (not part of the sources),
the componentwise difference `a - b`. -/
def vec3_sub {α : Type} [Sub α] (a b : vec3 α) : vec3 α :=
  ⟨a.x - b.x, a.y - b.y, a.z - b.z⟩

/-- Modelled from the spec: `vec3_mult` of `fract.h` (not part of the sources),
the vector `v` scaled by the float `f`. -/
def vec3_mult {α : Type} [Mul α] (v : vec3 α) (f : α) : vec3 α :=
  ⟨v.x * f, v.y * f, v.z * f⟩

/-! ## `src/vec.c` -/

section Reflect

variable {α : Type} [LinearOrderedField α]

/-- Function `vec2_reflect`: `f = 2.0 * _vec2_dot(v, n)`, result `{v.x - n.x * f, v.y - n.y * f}`. -/
def vec2_reflect (v n : vec2 α) : vec2 α :=
  let f := 2 * _vec2_dot v n
  ⟨v.x - n.x * f, v.y - n.y * f⟩

/-- Function `vec3_reflect`: `f = 2.0 * _vec3_dot(v, n)`, result
`{v.x - n.x * f, v.y - n.y * f, v.z - n.z * f}`. -/
def vec3_reflect (v n : vec3 α) : vec3 α :=
  let f := 2 * _vec3_dot v n
  ⟨v.x - n.x * f, v.y - n.y * f, v.z - n.z * f⟩

end Reflect

/-- Function `vec3_refract`.  The libm function `sqrtf` is a parameter.  The slot
`*outRefracted` is passed in with the value it holds before the call; the
result is the returned `bool` together with the value the slot holds after
the call. -/
def vec3_refract {α : Type} [Add α] [Sub α] [Mul α] [Zero α] [One α] [LT α]
    [DecidableRel (LT.lt : α → α → Prop)]
    (sqrtf : α → α) (v n : vec3 α) (nint : α) (outRefracted : vec3 α) :
    Bool × vec3 α :=
  let dt := _vec3_dot v n
  let discr := 1 - nint * nint * (1 - dt * dt)
  if discr > 0 then
    let tmp : vec3 α := ⟨(v.x - n.x * dt) * nint, (v.y - n.y * dt) * nint, (v.z - n.z * dt) * nint⟩
    (true, vec3_sub tmp (vec3_mult n (sqrtf discr)))
  else
    (false, outRefracted)

/-! ## `src/ray_3d.c` -/

/-- Function `ray3D_new`: `Ray3D ray = {orig, dir}`. -/
def ray3D_new {α : Type} (orig dir : vec3 α) : Ray3D α :=
  ⟨orig, dir⟩

/-- Function `ray3D_at`: `vec3_add(ray->orig, vec3_mult(ray->dir, t))`. -/
def ray3D_at {α : Type} [Add α] [Mul α] (ray : Ray3D α) (t : α) : vec3 α :=
  vec3_add ray.orig (vec3_mult ray.dir t)

/-! ## The random vectors of `src/vec.c`

`randf_signed` (not part of the sources) draws from a generator with hidden
state.  It is a parameter here: a step function on an explicit generator state
`σ`, giving the float drawn and the next state.  The draws of an initializer
list are taken left to right. -/

section Rand

variable {α σ : Type}

/-- Function `vec2_rand`: `vec2 p = {randf_signed(), randf_signed()}`. -/
def vec2_rand (randf_signed : σ → α × σ) (s : σ) : vec2 α × σ :=
  let d0 := randf_signed s
  let d1 := randf_signed d0.2
  (⟨d0.1, d1.1⟩, d1.2)

/-- Function `vec3_rand`: `vec3 p = {randf_signed(), randf_signed(), randf_signed()}`. -/
def vec3_rand (randf_signed : σ → α × σ) (s : σ) : vec3 α × σ :=
  let d0 := randf_signed s
  let d1 := randf_signed d0.2
  let d2 := randf_signed d1.2
  (⟨d0.1, d1.1, d2.1⟩, d2.2)

end Rand

/-! ## The macros `_ray3D_at` and `_ray2D_at` of `photon.h`

A macro is expanded on tokens: the argument given for `t` is pasted into the
body as written, and the compiler then reads the resulting expression with the
usual precedence of `*` over `+`.  The argument is therefore a list of tokens,
and each component of the expansion is evaluated by `ceval`, an evaluator of C
arithmetic expressions over literals, `+`, `*` and parentheses (both operators
associate to the left).  The argument given for `ray` is a plain pointer
variable, so `ray->orig.x` and its like are single operands. -/

/-- Tokens of a C arithmetic expression: an operand with its value, `+`, `*`,
`(` and `)`. -/
inductive CTok (α : Type) where
  | lit (x : α)
  | plus
  | star
  | lparen
  | rparen
deriving DecidableEq, Repr

/-- Where the evaluator stands inside one parenthesis level.
`need sum prod`: an operand must come next; `sum` is the value of the terms
already closed by a `+` (if any), `prod` the product of the factors of the
current term read so far (if any).
`got sum term`: an operand has just been read; `term` is the current product. -/
inductive CState (α : Type) where
  | need (sum : Option α) (prod : Option α)
  | got (sum : Option α) (term : α)
deriving DecidableEq, Repr

section Macro

variable {α : Type} [Add α] [Mul α]

/-- The value `sum + term` of an additive expression whose last term is `term`. -/
def CState.value (sum : Option α) (term : α) : α :=
  match sum with
  | none => term
  | some s => s + term

/-- Reading the operand `x` when `sum` and `prod` are pending. -/
def CState.feed (sum prod : Option α) (x : α) : CState α :=
  match prod with
  | none => .got sum x
  | some p => .got sum (p * x)

/-- One pass over the tokens; `stack` holds the pending `sum` and `prod` of the
enclosing parenthesis levels.  `none` is a syntax error. -/
def cevalAux : List (CTok α) → List (Option α × Option α) → CState α → Option α
  | [], [], .got s t => some (CState.value s t)
  | .lit x :: ts, st, .need s p => cevalAux ts st (CState.feed s p x)
  | .lparen :: ts, st, .need s p => cevalAux ts ((s, p) :: st) (.need none none)
  | .plus :: ts, st, .got s t => cevalAux ts st (.need (some (CState.value s t)) none)
  | .star :: ts, st, .got s t => cevalAux ts st (.need s (some t))
  | .rparen :: ts, (s0, p0) :: st, .got s t => cevalAux ts st (CState.feed s0 p0 (CState.value s t))
  | _, _, _ => none

/-- The value of a C arithmetic expression given as tokens. -/
def ceval (ts : List (CTok α)) : Option α :=
  cevalAux ts [] (.need none none)

/-- Macro `_ray3D_at(ray, t)`:
`((vec3){ray->orig.x + ray->dir.x * t, ray->orig.y + ray->dir.y * t, ray->orig.z + ray->dir.z * t})`,
with the tokens `t` pasted in. -/
def _ray3D_at (ray : Ray3D α) (t : List (CTok α)) : Option (vec3 α) :=
  match ceval ([.lit ray.orig.x, .plus, .lit ray.dir.x, .star] ++ t),
        ceval ([.lit ray.orig.y, .plus, .lit ray.dir.y, .star] ++ t),
        ceval ([.lit ray.orig.z, .plus, .lit ray.dir.z, .star] ++ t) with
  | some x, some y, some z => some ⟨x, y, z⟩
  | _, _, _ => none

/-- Macro `_ray2D_at(ray, t)`:
`((vec2){ray->orig.x + ray->dir.x * t, ray->orig.y + ray->dir.y * t})`,
with the tokens `t` pasted in. -/
def _ray2D_at (ray : Ray2D α) (t : List (CTok α)) : Option (vec2 α) :=
  match ceval ([.lit ray.orig.x, .plus, .lit ray.dir.x, .star] ++ t),
        ceval ([.lit ray.orig.y, .plus, .lit ray.dir.y, .star] ++ t) with
  | some x, some y => some ⟨x, y⟩
  | _, _ => none

end Macro

/-! ## Single-precision arithmetic

The `float` of the C code on the usual platforms: IEEE-754 binary32, every
operation rounded to nearest with ties to even.  A finite value is an integer
multiple `k * 2^(-149)` of the smallest subnormal; the two zeros are not told
apart (they compare equal and differ in no operation used here). -/

/-- A binary32 value: NaN, an infinity with its sign, or the finite value
`k * 2^(-149)`. -/
inductive F32 where
  | nan
  | inf (neg : Bool)
  | fin (k : ℤ)
deriving DecidableEq, Repr

namespace F32

/-- The position of the leading binary digit of `a` (0 for `a < 2`); the first
argument bounds the number of halvings. -/
def ilog2 : ℕ → ℕ → ℕ
  | 0, _ => 0
  | f + 1, a => if a < 2 then 0 else ilog2 f (a / 2) + 1

/-- Rounding of the exact value `N * 2^(-(149 + s))` to binary32: `d` low digits
are dropped so that 24 significant digits remain, and never less than `s` so
that the result is a multiple of `2^(-149)`; the rest decides the rounding, a
tie going to the even neighbour; a result of `2^128` or more is an infinity. -/
def round (N : ℤ) (s : ℕ) : F32 :=
  let a := N.natAbs
  let d := max (ilog2 a a - 23) s
  let q := a / 2 ^ d
  let r := a % 2 ^ d
  let m := if 2 ^ d < 2 * r ∨ (2 * r = 2 ^ d ∧ q % 2 = 1) then q + 1 else q
  let k := m * 2 ^ (d - s)
  if 2 ^ 277 ≤ k then inf (decide (N < 0))
  else if N < 0 then fin (-(k : ℤ)) else fin (k : ℤ)

/-- The float nearest to `m / 2^e`, for `e ≤ 149`. -/
def dyadic (m : ℤ) (e : ℕ) : F32 :=
  round (m * ((2 ^ (149 - e) : ℕ) : ℤ)) 0

/-- The float nearest to the integer `n`. -/
def ofInt (n : ℤ) : F32 :=
  dyadic n 0

/-- The rational value of a finite float (0 for NaN and the infinities). -/
def toRat : F32 → ℚ
  | fin k => (k : ℚ) / 2 ^ 149
  | _ => 0

/-- Negation. -/
def neg : F32 → F32
  | nan => nan
  | inf b => inf (!b)
  | fin k => fin (-k)

/-- Addition: the exact sum of two finite values, rounded. -/
def add : F32 → F32 → F32
  | fin a, fin b => round (a + b) 0
  | inf a, inf b => if a = b then inf a else nan
  | inf a, fin _ => inf a
  | fin _, inf b => inf b
  | _, _ => nan

/-- Multiplication: the exact product of two finite values, rounded. -/
def mul : F32 → F32 → F32
  | fin a, fin b => round (a * b) 149
  | inf a, inf b => inf (xor a b)
  | inf a, fin k => if k = 0 then nan else inf (xor a (decide (k < 0)))
  | fin k, inf b => if k = 0 then nan else inf (xor (decide (k < 0)) b)
  | _, _ => nan

/-- The comparison `<`; false when an operand is NaN. -/
def lt : F32 → F32 → Bool
  | fin a, fin b => decide (a < b)
  | fin _, inf b => !b
  | inf a, fin _ => a
  | inf a, inf b => a && !b
  | _, _ => false

/-- The comparison `<=`; false when an operand is NaN. -/
def le : F32 → F32 → Bool
  | fin a, fin b => decide (a ≤ b)
  | fin _, inf b => !b
  | inf a, fin _ => a
  | inf a, inf b => a || !b
  | _, _ => false

/-- The integer square root of `n` found digit by digit, from digit `i - 1`
down, `r` being the digits already fixed. -/
def isqrtBits : ℕ → ℕ → ℕ → ℕ
  | 0, _, r => r
  | i + 1, n, r =>
    if (r + 2 ^ i) * (r + 2 ^ i) ≤ n then isqrtBits i n (r + 2 ^ i) else isqrtBits i n r

/-- The correctly rounded square root, as `sqrtf` computes it: the root of
`k * 2^(-149) = (k * 2^53) / 2^202` is `r / 2^101` with `r` the square root of
`k * 2^53`; its integer part (at least 27 digits) with one more digit telling
whether the root is inexact rounds like the root itself. -/
def sqrt : F32 → F32
  | nan => nan
  | inf b => if b then nan else inf false
  | fin k =>
    if k < 0 then nan
    else
      let K := k.natAbs * 2 ^ 53
      let r := isqrtBits (ilog2 K K / 2 + 1) K 0
      let N := if r * r = K then 2 * r else 2 * r + 1
      round ((N * 2 ^ 47 : ℕ) : ℤ) 0

instance : Add F32 := ⟨add⟩

instance : Sub F32 := ⟨fun x y => add x (neg y)⟩

instance : Mul F32 := ⟨mul⟩

instance : Zero F32 := ⟨fin 0⟩

instance : One F32 := ⟨fin ((2 ^ 149 : ℕ) : ℤ)⟩

instance : LT F32 := ⟨fun x y => lt x y = true⟩

instance : LE F32 := ⟨fun x y => le x y = true⟩

instance : DecidableRel (LT.lt : F32 → F32 → Prop) :=
  fun x y => inferInstanceAs (Decidable (lt x y = true))

instance : DecidableRel (LE.le : F32 → F32 → Prop) :=
  fun x y => inferInstanceAs (Decidable (le x y = true))

end F32

/-- Componentwise rational value of a vector of floats. -/
def vec3.toRat (v : vec3 F32) : vec3 ℚ :=
  ⟨F32.toRat v.x, F32.toRat v.y, F32.toRat v.z⟩

/-- The integer square root: the greatest `k ≤ n` with `k * k ≤ n`. -/
def isqrt (n : ℕ) : ℕ :=
  Nat.findGreatest (fun k => k * k ≤ n) n

/-- A `sqrtf` on the rationals for running `vec3_refract` on concrete inputs:
the integer square roots of numerator and denominator, exact on the square of
a rational. -/
def sqrtQ (q : ℚ) : ℚ :=
  (isqrt q.num.natAbs : ℚ) / (isqrt q.den : ℚ)

section Theorems

variable {α : Type} [LinearOrderedField α]

/-- C1: reflection about a unit-length normal is an involution, in 3D and in 2D:
reflecting `v` twice about `n` with `n·n = 1` gives back `v`. -/
theorem reflect_involution :
    (∀ v n : vec3 α, _vec3_dot n n = 1 →
        vec3_reflect (vec3_reflect v n) n = v) ∧
    (∀ v n : vec2 α, _vec2_dot n n = 1 →
        vec2_reflect (vec2_reflect v n) n = v) := by
  refine ⟨?_, ?_⟩
  · rintro ⟨vx, vy, vz⟩ ⟨nx, ny, nz⟩ h
    simp only [_vec3_dot] at h
    simp only [vec3_reflect, _vec3_dot, vec3.mk.injEq]
    refine ⟨?_, ?_, ?_⟩
    · linear_combination (4 * nx * (vx * nx + vy * ny + vz * nz)) * h
    · linear_combination (4 * ny * (vx * nx + vy * ny + vz * nz)) * h
    · linear_combination (4 * nz * (vx * nx + vy * ny + vz * nz)) * h
  · rintro ⟨vx, vy⟩ ⟨nx, ny⟩ h
    simp only [_vec2_dot] at h
    simp only [vec2_reflect, _vec2_dot, vec2.mk.injEq]
    refine ⟨?_, ?_⟩
    · linear_combination (4 * nx * (vx * nx + vy * ny)) * h
    · linear_combination (4 * ny * (vx * nx + vy * ny)) * h

theorem reflect_involution_witness :
    _vec3_dot (⟨3/5, 0, 4/5⟩ : vec3 ℚ) ⟨3/5, 0, 4/5⟩ = 1 ∧
    vec3_reflect (vec3_reflect (⟨1, 2, 3⟩ : vec3 ℚ) ⟨3/5, 0, 4/5⟩) ⟨3/5, 0, 4/5⟩ = ⟨1, 2, 3⟩ ∧
    _vec2_dot (⟨3/5, 4/5⟩ : vec2 ℚ) ⟨3/5, 4/5⟩ = 1 ∧
    vec2_reflect (vec2_reflect (⟨1, 2⟩ : vec2 ℚ) ⟨3/5, 4/5⟩) ⟨3/5, 4/5⟩ = ⟨1, 2⟩ :=
  ⟨by norm_num [_vec3_dot],
    reflect_involution.1 ⟨1, 2, 3⟩ ⟨3/5, 0, 4/5⟩ (by norm_num [_vec3_dot]),
    by norm_num [_vec2_dot],
    reflect_involution.2 ⟨1, 2⟩ ⟨3/5, 4/5⟩ (by norm_num [_vec2_dot])⟩

/-! ### The two branches of `vec3_refract` -/

theorem refract_of_pos (sqrtf : α → α) (v n : vec3 α) (nint : α) (out : vec3 α)
    (h : 0 < 1 - nint * nint * (1 - _vec3_dot v n * _vec3_dot v n)) :
    vec3_refract sqrtf v n nint out =
      (true, vec3_sub
        ⟨(v.x - n.x * _vec3_dot v n) * nint, (v.y - n.y * _vec3_dot v n) * nint,
          (v.z - n.z * _vec3_dot v n) * nint⟩
        (vec3_mult n (sqrtf (1 - nint * nint * (1 - _vec3_dot v n * _vec3_dot v n))))) := by
  simp only [vec3_refract, gt_iff_lt]
  rw [if_pos h]

theorem refract_of_not_pos (sqrtf : α → α) (v n : vec3 α) (nint : α) (out : vec3 α)
    (h : ¬ 0 < 1 - nint * nint * (1 - _vec3_dot v n * _vec3_dot v n)) :
    vec3_refract sqrtf v n nint out = (false, out) := by
  simp only [vec3_refract, gt_iff_lt]
  rw [if_neg h]

theorem refract_pos_of_true (sqrtf : α → α) (v n : vec3 α) (nint : α) (out : vec3 α)
    (h : (vec3_refract sqrtf v n nint out).1 = true) :
    0 < 1 - nint * nint * (1 - _vec3_dot v n * _vec3_dot v n) := by
  by_contra hn
  rw [refract_of_not_pos sqrtf v n nint out hn] at h
  exact Bool.noConfusion h

theorem refract_not_pos_of_false (sqrtf : α → α) (v n : vec3 α) (nint : α) (out : vec3 α)
    (h : (vec3_refract sqrtf v n nint out).1 = false) :
    ¬ 0 < 1 - nint * nint * (1 - _vec3_dot v n * _vec3_dot v n) := by
  intro hp
  rw [refract_of_pos sqrtf v n nint out hp] at h
  exact Bool.noConfusion h

theorem refract_discr_eq (nint dt : α) :
    1 - nint * nint * (1 - dt * dt) = 1 - nint ^ 2 * (1 - dt ^ 2) := by
  ring

theorem isqrt_one : isqrt 1 = 1 := by decide

theorem isqrt_nine : isqrt 9 = 3 := by decide

theorem isqrt_twentyfive : isqrt 25 = 5 := by decide

/-- The run used as a worked example below: a ray `(3/5, 0, -4/5)` entering
through the normal `(0, 0, 1)` with index ratio `4/3` leaves as `(4/5, 0, -3/5)`. -/
theorem refract_run :
    vec3_refract sqrtQ (⟨3/5, 0, -4/5⟩ : vec3 ℚ) ⟨0, 0, 1⟩ (4/3) ⟨7, 7, 7⟩
      = (true, ⟨4/5, 0, -3/5⟩) := by
  norm_num [vec3_refract, _vec3_dot, vec3_sub, vec3_mult, sqrtQ, isqrt_nine, isqrt_twentyfive]

/-- A run with total internal reflection: the slot keeps `(7, 7, 7)`. -/
theorem refract_run_false :
    vec3_refract sqrtQ (⟨1, 0, 0⟩ : vec3 ℚ) ⟨0, 0, 1⟩ 2 ⟨7, 7, 7⟩ = (false, ⟨7, 7, 7⟩) := by
  norm_num [vec3_refract, _vec3_dot]

/-! ### Evaluating a parenthesised expression -/

/-- C2: `vec3_reflect(v, n)` is `v - 2*(v·n)*n` in every component, and so is
`vec2_reflect(v, n)` in 2D, whatever the length of `n`. -/
theorem reflect_formula :
    (∀ v n : vec3 α, vec3_reflect v n =
        ⟨v.x - 2 * _vec3_dot v n * n.x, v.y - 2 * _vec3_dot v n * n.y,
          v.z - 2 * _vec3_dot v n * n.z⟩) ∧
    (∀ v n : vec2 α, vec2_reflect v n =
        ⟨v.x - 2 * _vec2_dot v n * n.x, v.y - 2 * _vec2_dot v n * n.y⟩) := by
  refine ⟨?_, ?_⟩
  · intro v n
    simp only [vec3_reflect, vec3.mk.injEq]
    exact ⟨by ring, by ring, by ring⟩
  · intro v n
    simp only [vec2_reflect, vec2.mk.injEq]
    exact ⟨by ring, by ring⟩

/-- In exact arithmetic `vec3_refract` returns false exactly when the
discriminant `1 - eta^2 * (1 - (v·n)^2)` is at most zero, and true exactly when
it is strictly positive. -/
theorem refract_flag_exact (sqrtf : α → α) (v n : vec3 α) (eta : α) (out : vec3 α) :
    ((vec3_refract sqrtf v n eta out).1 = false ↔
        1 - eta ^ 2 * (1 - (_vec3_dot v n) ^ 2) ≤ 0) ∧
    ((vec3_refract sqrtf v n eta out).1 = true ↔
        0 < 1 - eta ^ 2 * (1 - (_vec3_dot v n) ^ 2)) := by
  have e : 1 - eta * eta * (1 - _vec3_dot v n * _vec3_dot v n)
      = 1 - eta ^ 2 * (1 - (_vec3_dot v n) ^ 2) := by ring
  simp only [vec3_refract, gt_iff_lt, e]
  by_cases h : 0 < 1 - eta ^ 2 * (1 - (_vec3_dot v n) ^ 2)
  · rw [if_pos h]
    exact ⟨⟨fun hh => Bool.noConfusion hh, fun hh => absurd h (not_lt.mpr hh)⟩,
      ⟨fun _ => h, fun _ => rfl⟩⟩
  · rw [if_neg h]
    exact ⟨⟨fun _ => not_lt.mp h, fun _ => rfl⟩,
      ⟨fun hh => Bool.noConfusion hh, fun hh => absurd hh h⟩⟩

/-- C4: whenever `vec3_refract` returns true, the slot holds
`eta*(v - n*dt) - n*sqrt(discriminant)` with `dt = v·n` and
`discriminant = 1 - eta^2*(1 - dt^2)`, component by component. -/
theorem refract_true_out (sqrtf : α → α) (v n : vec3 α) (eta : α) (out : vec3 α)
    (h : (vec3_refract sqrtf v n eta out).1 = true) :
    (vec3_refract sqrtf v n eta out).2 =
      ⟨eta * (v.x - n.x * _vec3_dot v n)
          - n.x * sqrtf (1 - eta ^ 2 * (1 - (_vec3_dot v n) ^ 2)),
        eta * (v.y - n.y * _vec3_dot v n)
          - n.y * sqrtf (1 - eta ^ 2 * (1 - (_vec3_dot v n) ^ 2)),
        eta * (v.z - n.z * _vec3_dot v n)
          - n.z * sqrtf (1 - eta ^ 2 * (1 - (_vec3_dot v n) ^ 2))⟩ := by
  rw [refract_of_pos sqrtf v n eta out (refract_pos_of_true sqrtf v n eta out h),
    refract_discr_eq]
  simp only [vec3_sub, vec3_mult, vec3.mk.injEq]
  exact ⟨by ring, by ring, by ring⟩

theorem refract_true_out_witness :
    (vec3_refract sqrtQ (⟨3/5, 0, -4/5⟩ : vec3 ℚ) ⟨0, 0, 1⟩ (4/3) ⟨7, 7, 7⟩).1 = true ∧
    (vec3_refract sqrtQ (⟨3/5, 0, -4/5⟩ : vec3 ℚ) ⟨0, 0, 1⟩ (4/3) ⟨7, 7, 7⟩).2
      = ⟨4/5, 0, -3/5⟩ := by
  have ht : (vec3_refract sqrtQ (⟨3/5, 0, -4/5⟩ : vec3 ℚ) ⟨0, 0, 1⟩ (4/3) ⟨7, 7, 7⟩).1 = true := by
    rw [refract_run]
  refine ⟨ht, ?_⟩
  rw [refract_true_out sqrtQ ⟨3/5, 0, -4/5⟩ ⟨0, 0, 1⟩ (4/3) ⟨7, 7, 7⟩ ht]
  norm_num [_vec3_dot, sqrtQ, isqrt_nine, isqrt_twentyfive]

/-- C5: whenever `vec3_refract` returns false, the slot holds after the call the
value it held before, whatever that value was. -/
theorem refract_false_frame (sqrtf : α → α) (v n : vec3 α) (eta : α) (out : vec3 α)
    (h : (vec3_refract sqrtf v n eta out).1 = false) :
    (vec3_refract sqrtf v n eta out).2 = out := by
  rw [refract_of_not_pos sqrtf v n eta out (refract_not_pos_of_false sqrtf v n eta out h)]

theorem refract_false_frame_witness :
    (vec3_refract sqrtQ (⟨1, 0, 0⟩ : vec3 ℚ) ⟨0, 0, 1⟩ 2 ⟨7, 7, 7⟩).1 = false ∧
    (vec3_refract sqrtQ (⟨1, 0, 0⟩ : vec3 ℚ) ⟨0, 0, 1⟩ 2 ⟨7, 7, 7⟩).2 = ⟨7, 7, 7⟩ :=
  ⟨by rw [refract_run_false],
    refract_false_frame sqrtQ ⟨1, 0, 0⟩ ⟨0, 0, 1⟩ 2 ⟨7, 7, 7⟩ (by rw [refract_run_false])⟩

/-- C8: `ray3D_at(ray, t)` is `orig + dir*t` in every component; the macro
`_ray3D_at(ray, t)`, given the scalar `t`, yields the same vector as the
function; and the macro `_ray2D_at(ray, t)` yields
`(orig.x + dir.x*t, orig.y + dir.y*t)`. -/
theorem ray_at_eval (ray : Ray3D α) (ray2 : Ray2D α) (t : α) :
    ray3D_at ray t =
      ⟨ray.orig.x + ray.dir.x * t, ray.orig.y + ray.dir.y * t, ray.orig.z + ray.dir.z * t⟩ ∧
    _ray3D_at ray [CTok.lit t] = some (ray3D_at ray t) ∧
    _ray2D_at ray2 [CTok.lit t]
      = some ⟨ray2.orig.x + ray2.dir.x * t, ray2.orig.y + ray2.dir.y * t⟩ :=
  ⟨rfl, rfl, rfl⟩

/-- C9: the reflections do not normalise `n`.  Reflecting about `k*n` gives
`v - 2*k^2*(v·n)*n`, in 3D and in 2D.  With `v = (1,0,0)` and `n = (2,0,0)`,
which is twice the unit vector `(1,0,0)`, reflecting twice does not give back
`v`, and the reflection about `n` differs from the one about `(1,0,0)`. -/
theorem reflect_no_normalization :
    (∀ (v n : vec3 α) (k : α), vec3_reflect v (vec3_mult n k) =
        ⟨v.x - 2 * k ^ 2 * _vec3_dot v n * n.x, v.y - 2 * k ^ 2 * _vec3_dot v n * n.y,
          v.z - 2 * k ^ 2 * _vec3_dot v n * n.z⟩) ∧
    (∀ (v n : vec2 α) (k : α), vec2_reflect v ⟨n.x * k, n.y * k⟩ =
        ⟨v.x - 2 * k ^ 2 * _vec2_dot v n * n.x, v.y - 2 * k ^ 2 * _vec2_dot v n * n.y⟩) ∧
    vec3_reflect (⟨1, 0, 0⟩ : vec3 α) ⟨2, 0, 0⟩ = ⟨-7, 0, 0⟩ ∧
    vec3_reflect (vec3_reflect (⟨1, 0, 0⟩ : vec3 α) ⟨2, 0, 0⟩) ⟨2, 0, 0⟩ = ⟨49, 0, 0⟩ ∧
    vec3_reflect (vec3_reflect (⟨1, 0, 0⟩ : vec3 α) ⟨2, 0, 0⟩) ⟨2, 0, 0⟩ ≠ ⟨1, 0, 0⟩ ∧
    (⟨2, 0, 0⟩ : vec3 α) = vec3_mult ⟨1, 0, 0⟩ 2 ∧
    _vec3_dot (⟨1, 0, 0⟩ : vec3 α) ⟨1, 0, 0⟩ = 1 ∧
    vec3_reflect (⟨1, 0, 0⟩ : vec3 α) ⟨1, 0, 0⟩ = ⟨-1, 0, 0⟩ ∧
    vec3_reflect (⟨1, 0, 0⟩ : vec3 α) ⟨2, 0, 0⟩ ≠ vec3_reflect ⟨1, 0, 0⟩ ⟨1, 0, 0⟩ := by
  refine ⟨?_, ?_, ?_, ?_, ?_, ?_, ?_, ?_, ?_⟩
  · intro v n k
    simp only [vec3_reflect, vec3_mult, _vec3_dot, vec3.mk.injEq]
    exact ⟨by ring, by ring, by ring⟩
  · intro v n k
    simp only [vec2_reflect, _vec2_dot, vec2.mk.injEq]
    exact ⟨by ring, by ring⟩
  · norm_num [vec3_reflect, _vec3_dot]
  · norm_num [vec3_reflect, _vec3_dot]
  · norm_num [vec3_reflect, _vec3_dot]
  · norm_num [vec3_mult]
  · norm_num [_vec3_dot]
  · norm_num [vec3_reflect, _vec3_dot]
  · norm_num [vec3_reflect, _vec3_dot]

end Theorems

section RandTheorems

variable {α σ : Type} [LinearOrderedField α]

/-- C10: the components of `vec2_rand()` and `vec3_rand()` are the raw results of
2 and 3 successive `randf_signed()` draws; if every draw of the generator lies
in `[-1, 1]` so does every component; and nothing normalises the result: the
draws 1, 1, 1 give the vector `(1, 1, 1)`, of squared length 3. -/
theorem rand_components (randf_signed : σ → α × σ) (s : σ) :
    (vec2_rand randf_signed s).1 =
        ⟨(randf_signed s).1, (randf_signed (randf_signed s).2).1⟩ ∧
    (vec3_rand randf_signed s).1 =
        ⟨(randf_signed s).1, (randf_signed (randf_signed s).2).1,
          (randf_signed (randf_signed (randf_signed s).2).2).1⟩ ∧
    ((∀ s1 : σ, -1 ≤ (randf_signed s1).1 ∧ (randf_signed s1).1 ≤ 1) →
      (-1 ≤ (vec2_rand randf_signed s).1.x ∧ (vec2_rand randf_signed s).1.x ≤ 1) ∧
      (-1 ≤ (vec2_rand randf_signed s).1.y ∧ (vec2_rand randf_signed s).1.y ≤ 1) ∧
      (-1 ≤ (vec3_rand randf_signed s).1.x ∧ (vec3_rand randf_signed s).1.x ≤ 1) ∧
      (-1 ≤ (vec3_rand randf_signed s).1.y ∧ (vec3_rand randf_signed s).1.y ≤ 1) ∧
      (-1 ≤ (vec3_rand randf_signed s).1.z ∧ (vec3_rand randf_signed s).1.z ≤ 1)) ∧
    (vec3_rand (fun u : Unit => ((1 : α), u)) ()).1 = ⟨1, 1, 1⟩ ∧
    _vec3_dot (vec3_rand (fun u : Unit => ((1 : α), u)) ()).1
        (vec3_rand (fun u : Unit => ((1 : α), u)) ()).1 = 3 ∧
    _vec3_dot (vec3_rand (fun u : Unit => ((1 : α), u)) ()).1
        (vec3_rand (fun u : Unit => ((1 : α), u)) ()).1 ≠ 1 := by
  refine ⟨rfl, rfl, fun h => ⟨h _, h _, h _, h _, h _⟩, rfl, ?_, ?_⟩
  · norm_num [vec3_rand, _vec3_dot]
  · norm_num [vec3_rand, _vec3_dot]

theorem rand_components_witness :
    (∀ k : ℕ, -1 ≤ ((1 : ℚ) / (k + 1), k + 1).1 ∧ ((1 : ℚ) / (k + 1), k + 1).1 ≤ 1) ∧
    (vec3_rand (fun k : ℕ => ((1 : ℚ) / (k + 1), k + 1)) 0).1 = ⟨1, 1/2, 1/3⟩ ∧
    (-1 ≤ (vec3_rand (fun k : ℕ => ((1 : ℚ) / (k + 1), k + 1)) 0).1.z ∧
      (vec3_rand (fun k : ℕ => ((1 : ℚ) / (k + 1), k + 1)) 0).1.z ≤ 1) := by
  have hb : ∀ k : ℕ, -1 ≤ ((1 : ℚ) / (k + 1), k + 1).1 ∧ ((1 : ℚ) / (k + 1), k + 1).1 ≤ 1 := by
    intro k
    have hk : (0 : ℚ) < (k : ℚ) + 1 := by positivity
    constructor
    · have : (0 : ℚ) ≤ 1 / ((k : ℚ) + 1) := by positivity
      simp only
      linarith
    · simp only
      rw [div_le_one hk]
      linarith
  refine ⟨hb, ?_, ?_⟩
  · rw [(rand_components (fun k : ℕ => ((1 : ℚ) / (k + 1), k + 1)) 0).2.1]
    norm_num
  · exact ((rand_components (fun k : ℕ => ((1 : ℚ) / (k + 1), k + 1)) 0).2.2.1 hb).2.2.2.2

end RandTheorems

section MoreTheorems

variable {α : Type} [LinearOrderedField α]

/-- C12: the ray constructor only assigns its fields: `ray3D_new(orig, dir)` has
origin `orig` and direction `dir` as given (a direction `(2,0,0)`, of squared
length 4, stays `(2,0,0)`), and evaluating the new ray at `t` gives
`orig + dir*t` in every component. -/
theorem ray_new_fields (orig dir : vec3 α) (t : α) :
    (ray3D_new orig dir).orig = orig ∧
    (ray3D_new orig dir).dir = dir ∧
    ray3D_at (ray3D_new orig dir) t =
      ⟨orig.x + dir.x * t, orig.y + dir.y * t, orig.z + dir.z * t⟩ ∧
    (ray3D_new (⟨0, 0, 0⟩ : vec3 α) ⟨2, 0, 0⟩).dir = ⟨2, 0, 0⟩ ∧
    _vec3_dot (ray3D_new (⟨0, 0, 0⟩ : vec3 α) ⟨2, 0, 0⟩).dir
      (ray3D_new (⟨0, 0, 0⟩ : vec3 α) ⟨2, 0, 0⟩).dir = 4 := by
  refine ⟨rfl, rfl, rfl, rfl, ?_⟩
  norm_num [ray3D_new, _vec3_dot]

theorem isqrt_zero : isqrt 0 = 0 := by decide

/-- The discriminant of `vec3_refract` at `nint = 1`, as the code writes it. -/
theorem refract_discr_one (dt : α) : 1 - 1 * 1 * (1 - dt * dt) = dt ^ 2 := by
  ring

/-- At `nint = 1.0f` and a computed `dt = 0` the discriminant computed in single
precision is `0`, which fails the test `discr > 0`. -/
theorem F32.discr_one_zero :
    ¬ ((1 : F32) - 1 * 1 * (1 - (0 : F32) * 0) > 0) := by
  decide!

/-- C15, amended.  In exact arithmetic, for `v` and `n` of any length and a
`sqrtf` that returns the non-negative root `|v·n|` of `(v·n)^2`: at `eta = 1`
the discriminant is `(v·n)^2`; if `v·n < 0` the call returns true and writes
`v`; if `v·n > 0` it returns true and writes `vec3_reflect(v, n)`, which is not
`v`; if `v·n = 0` it returns false and leaves the slot as it was.  In single
precision the call returns false and leaves the slot as it was whenever the
computed `v·n` is 0. -/
theorem refract_eta_one (sqrtf : α → α) (v n out : vec3 α)
    (hs : sqrtf ((_vec3_dot v n) ^ 2) = |_vec3_dot v n|) :
    1 - (1 : α) ^ 2 * (1 - (_vec3_dot v n) ^ 2) = (_vec3_dot v n) ^ 2 ∧
    (_vec3_dot v n < 0 → vec3_refract sqrtf v n 1 out = (true, v)) ∧
    (0 < _vec3_dot v n →
      vec3_refract sqrtf v n 1 out = (true, vec3_reflect v n) ∧ vec3_reflect v n ≠ v) ∧
    (_vec3_dot v n = 0 → vec3_refract sqrtf v n 1 out = (false, out)) ∧
    (∀ (sqrtf32 : F32 → F32) (v32 n32 out32 : vec3 F32), _vec3_dot v32 n32 = 0 →
      vec3_refract sqrtf32 v32 n32 1 out32 = (false, out32)) := by
  refine ⟨by ring, fun hneg => ?_, fun hpos => ⟨?_, ?_⟩, fun hzero => ?_, ?_⟩
  rotate_right
  · intro sqrtf32 v32 n32 out32 h0
    simp only [vec3_refract, h0]
    rw [if_neg F32.discr_one_zero]
  · have hd : 0 < 1 - (1 : α) * 1 * (1 - _vec3_dot v n * _vec3_dot v n) := by
      rw [refract_discr_one]
      have := mul_pos_of_neg_of_neg hneg hneg
      rwa [← sq] at this
    rw [refract_of_pos sqrtf v n 1 out hd, refract_discr_one, hs, abs_of_neg hneg]
    simp only [vec3_sub, vec3_mult, Prod.mk.injEq, true_and]
    obtain ⟨vx, vy, vz⟩ := v
    simp only [vec3.mk.injEq]
    exact ⟨by ring, by ring, by ring⟩
  · have hd : 0 < 1 - (1 : α) * 1 * (1 - _vec3_dot v n * _vec3_dot v n) := by
      rw [refract_discr_one]
      exact pow_pos hpos 2
    rw [refract_of_pos sqrtf v n 1 out hd, refract_discr_one, hs, abs_of_pos hpos]
    simp only [vec3_sub, vec3_mult, vec3_reflect, Prod.mk.injEq, true_and, vec3.mk.injEq]
    exact ⟨by ring, by ring, by ring⟩
  · intro heq
    obtain ⟨vx, vy, vz⟩ := v
    obtain ⟨nx, ny, nz⟩ := n
    simp only [vec3_reflect, vec3.mk.injEq] at heq
    obtain ⟨hx, hy, hz⟩ := heq
    have h2 : (2 : α) * _vec3_dot ⟨vx, vy, vz⟩ ⟨nx, ny, nz⟩ ≠ 0 :=
      mul_ne_zero two_ne_zero (ne_of_gt hpos)
    have hnx : nx = 0 := by
      have : nx * (2 * _vec3_dot ⟨vx, vy, vz⟩ ⟨nx, ny, nz⟩) = 0 := by linear_combination -hx
      exact (mul_eq_zero.mp this).resolve_right h2
    have hny : ny = 0 := by
      have : ny * (2 * _vec3_dot ⟨vx, vy, vz⟩ ⟨nx, ny, nz⟩) = 0 := by linear_combination -hy
      exact (mul_eq_zero.mp this).resolve_right h2
    have hnz : nz = 0 := by
      have : nz * (2 * _vec3_dot ⟨vx, vy, vz⟩ ⟨nx, ny, nz⟩) = 0 := by linear_combination -hz
      exact (mul_eq_zero.mp this).resolve_right h2
    rw [hnx, hny, hnz] at hpos
    simp [_vec3_dot] at hpos
  · have hd : ¬ 0 < 1 - (1 : α) * 1 * (1 - _vec3_dot v n * _vec3_dot v n) := by
      rw [refract_discr_one, hzero]
      simp
    rw [refract_of_not_pos sqrtf v n 1 out hd]

theorem refract_eta_one_witness :
    (_vec3_dot (⟨1, 2, -3⟩ : vec3 ℚ) ⟨0, 0, 1⟩ < 0 ∧
      vec3_refract sqrtQ (⟨1, 2, -3⟩ : vec3 ℚ) ⟨0, 0, 1⟩ 1 ⟨7, 7, 7⟩ = (true, ⟨1, 2, -3⟩)) ∧
    (0 < _vec3_dot (⟨1, 2, 3⟩ : vec3 ℚ) ⟨0, 0, 1⟩ ∧
      vec3_refract sqrtQ (⟨1, 2, 3⟩ : vec3 ℚ) ⟨0, 0, 1⟩ 1 ⟨7, 7, 7⟩
        = (true, vec3_reflect ⟨1, 2, 3⟩ ⟨0, 0, 1⟩) ∧
      vec3_reflect (⟨1, 2, 3⟩ : vec3 ℚ) ⟨0, 0, 1⟩ = ⟨1, 2, -3⟩) ∧
    (_vec3_dot (⟨1, 2, 0⟩ : vec3 ℚ) ⟨0, 0, 1⟩ = 0 ∧
      vec3_refract sqrtQ (⟨1, 2, 0⟩ : vec3 ℚ) ⟨0, 0, 1⟩ 1 ⟨7, 7, 7⟩ = (false, ⟨7, 7, 7⟩)) ∧
    (_vec3_dot (⟨1, 1, 0⟩ : vec3 F32) ⟨0, 0, 1⟩ = 0 ∧
      vec3_refract F32.sqrt (⟨1, 1, 0⟩ : vec3 F32) ⟨0, 0, 1⟩ 1 ⟨1, 1, 1⟩
        = (false, ⟨1, 1, 1⟩)) := by
  have h4 : _vec3_dot (⟨1, 1, 0⟩ : vec3 F32) ⟨0, 0, 1⟩ = 0 := by decide!
  have hs1 : sqrtQ ((_vec3_dot (⟨1, 2, -3⟩ : vec3 ℚ) ⟨0, 0, 1⟩) ^ 2)
      = |_vec3_dot (⟨1, 2, -3⟩ : vec3 ℚ) ⟨0, 0, 1⟩| := by
    norm_num [_vec3_dot, sqrtQ, isqrt_nine, isqrt_one]
  have hs2 : sqrtQ ((_vec3_dot (⟨1, 2, 3⟩ : vec3 ℚ) ⟨0, 0, 1⟩) ^ 2)
      = |_vec3_dot (⟨1, 2, 3⟩ : vec3 ℚ) ⟨0, 0, 1⟩| := by
    norm_num [_vec3_dot, sqrtQ, isqrt_nine, isqrt_one]
  have hs3 : sqrtQ ((_vec3_dot (⟨1, 2, 0⟩ : vec3 ℚ) ⟨0, 0, 1⟩) ^ 2)
      = |_vec3_dot (⟨1, 2, 0⟩ : vec3 ℚ) ⟨0, 0, 1⟩| := by
    norm_num [_vec3_dot, sqrtQ, isqrt_zero, isqrt_one]
  have h1 : _vec3_dot (⟨1, 2, -3⟩ : vec3 ℚ) ⟨0, 0, 1⟩ < 0 := by norm_num [_vec3_dot]
  have h2 : 0 < _vec3_dot (⟨1, 2, 3⟩ : vec3 ℚ) ⟨0, 0, 1⟩ := by norm_num [_vec3_dot]
  have h3 : _vec3_dot (⟨1, 2, 0⟩ : vec3 ℚ) ⟨0, 0, 1⟩ = 0 := by norm_num [_vec3_dot]
  refine ⟨⟨h1, (refract_eta_one sqrtQ ⟨1, 2, -3⟩ ⟨0, 0, 1⟩ ⟨7, 7, 7⟩ hs1).2.1 h1⟩,
    ⟨h2, ((refract_eta_one sqrtQ ⟨1, 2, 3⟩ ⟨0, 0, 1⟩ ⟨7, 7, 7⟩ hs2).2.2.1 h2).1, ?_⟩,
    ⟨h3, (refract_eta_one sqrtQ ⟨1, 2, 0⟩ ⟨0, 0, 1⟩ ⟨7, 7, 7⟩ hs3).2.2.2.1 h3⟩,
    ⟨h4, (refract_eta_one sqrtQ ⟨1, 2, 0⟩ ⟨0, 0, 1⟩ ⟨7, 7, 7⟩ hs3).2.2.2.2
      F32.sqrt ⟨1, 1, 0⟩ ⟨0, 0, 1⟩ ⟨1, 1, 1⟩ h4⟩⟩
  norm_num [vec3_reflect, _vec3_dot]

end MoreTheorems

section Purity

variable {α σ : Type} [LinearOrderedField α]

end Purity

section FloatTheorems

variable {α : Type} [LinearOrderedField α]

/-! ### The returned flag in any arithmetic -/

/-- In any arithmetic `vec3_refract` returns true exactly when the discriminant
it has computed passes the test `discr > 0`. -/
theorem refract_flag_true_iff {β : Type} [Add β] [Sub β] [Mul β] [Zero β] [One β] [LT β]
    [DecidableRel (LT.lt : β → β → Prop)]
    (sqrtf : β → β) (v n : vec3 β) (nint : β) (out : vec3 β) :
    (vec3_refract sqrtf v n nint out).1 = true ↔
      1 - nint * nint * (1 - _vec3_dot v n * _vec3_dot v n) > 0 := by
  simp only [vec3_refract]
  by_cases h : 1 - nint * nint * (1 - _vec3_dot v n * _vec3_dot v n) > 0
  · rw [if_pos h]
    exact ⟨fun _ => h, fun _ => rfl⟩
  · rw [if_neg h]
    exact ⟨fun hh => Bool.noConfusion hh, fun hh => absurd hh h⟩

/-- In any arithmetic `vec3_refract` returns false exactly when the discriminant
it has computed fails the test `discr > 0`. -/
theorem refract_flag_false_iff {β : Type} [Add β] [Sub β] [Mul β] [Zero β] [One β] [LT β]
    [DecidableRel (LT.lt : β → β → Prop)]
    (sqrtf : β → β) (v n : vec3 β) (nint : β) (out : vec3 β) :
    (vec3_refract sqrtf v n nint out).1 = false ↔
      ¬ (1 - nint * nint * (1 - _vec3_dot v n * _vec3_dot v n) > 0) := by
  rw [← refract_flag_true_iff sqrtf v n nint out]
  cases (vec3_refract sqrtf v n nint out).1 <;> simp

/-- A float fails the test `d > 0` exactly when it is NaN or at most 0. -/
theorem F32.not_pos_iff (d : F32) : ¬ (d > 0) ↔ d = F32.nan ∨ d ≤ 0 := by
  cases d with
  | nan => exact ⟨fun _ => Or.inl rfl, fun _ h => Bool.noConfusion h⟩
  | inf b =>
    cases b
    · exact ⟨fun h => absurd rfl h, fun h => h.elim (fun h => F32.noConfusion h)
        (fun h => Bool.noConfusion h)⟩
    · exact ⟨fun _ => Or.inr rfl, fun _ h => Bool.noConfusion h⟩
  | fin k =>
    have hlt : (F32.fin k > 0) ↔ 0 < k := by
      show F32.lt (F32.fin 0) (F32.fin k) = true ↔ 0 < k
      simp [F32.lt]
    have hle : (F32.fin k ≤ 0) ↔ k ≤ 0 := by
      show F32.le (F32.fin k) (F32.fin 0) = true ↔ k ≤ 0
      simp [F32.le]
    rw [hlt, hle, not_lt]
    exact ⟨fun h => Or.inr h, fun h => h.elim (fun h => F32.noConfusion h) id⟩

theorem F32.dyadic_neg_one_13 : F32.dyadic (-1) 13 = F32.fin (-((2 ^ 136 : ℕ) : ℤ)) := by
  decide!

theorem F32.ofInt_24929 : F32.ofInt 24929 = F32.fin (24929 * ((2 ^ 149 : ℕ) : ℤ)) := by
  decide!

theorem F32.ofInt_16777216 : F32.ofInt 16777216 = F32.fin (16777216 * ((2 ^ 149 : ℕ) : ℤ)) := by
  decide!

theorem F32.ofInt_673 : F32.ofInt 673 = F32.fin (673 * ((2 ^ 149 : ℕ) : ℤ)) := by
  decide!

theorem F32.ofInt_neg_one : F32.ofInt (-1) = F32.fin (-((2 ^ 149 : ℕ) : ℤ)) := by
  decide!

/-- C3, as stated, fails in single precision.  At `v = (1, 0, -2^-13)`,
`n = (0, 0, 1)`, `eta = 1` the exact discriminant is `2^-26 > 0`, yet the code
returns false (`1.0f - dt*dt` rounds to `1.0f`).  At `v = (24929, 2^24, 1)`,
`n = (673, -1, -1)`, `eta = 1` the exact discriminant is `0`, yet the code
returns true (`24929 * 673` rounds to `2^24`, so `dt = -1`).  With a NaN in `v`
the code returns false although the computed discriminant is not `<= 0`. -/
theorem refract_flag_float :
    vec3.toRat ⟨1, 0, F32.dyadic (-1) 13⟩ = ⟨1, 0, -1/8192⟩ ∧
    vec3.toRat ⟨0, 0, 1⟩ = ⟨0, 0, 1⟩ ∧
    F32.toRat 1 = 1 ∧
    0 < 1 - (F32.toRat 1) ^ 2 *
      (1 - (_vec3_dot (vec3.toRat ⟨1, 0, F32.dyadic (-1) 13⟩) (vec3.toRat ⟨0, 0, 1⟩)) ^ 2) ∧
    (vec3_refract F32.sqrt ⟨1, 0, F32.dyadic (-1) 13⟩ ⟨0, 0, 1⟩ 1 ⟨0, 0, 0⟩).1 = false ∧
    vec3.toRat ⟨F32.ofInt 24929, F32.ofInt 16777216, 1⟩ = ⟨24929, 16777216, 1⟩ ∧
    vec3.toRat ⟨F32.ofInt 673, F32.ofInt (-1), F32.ofInt (-1)⟩ = ⟨673, -1, -1⟩ ∧
    1 - (F32.toRat 1) ^ 2 *
      (1 - (_vec3_dot (vec3.toRat ⟨F32.ofInt 24929, F32.ofInt 16777216, 1⟩)
        (vec3.toRat ⟨F32.ofInt 673, F32.ofInt (-1), F32.ofInt (-1)⟩)) ^ 2) ≤ 0 ∧
    (vec3_refract F32.sqrt ⟨F32.ofInt 24929, F32.ofInt 16777216, 1⟩
      ⟨F32.ofInt 673, F32.ofInt (-1), F32.ofInt (-1)⟩ 1 ⟨0, 0, 0⟩).1 = true ∧
    (vec3_refract F32.sqrt ⟨F32.nan, 0, 0⟩ ⟨0, 0, 1⟩ 1 ⟨0, 0, 0⟩).1 = false ∧
    ¬ ((1 : F32) - 1 * 1 * (1 - _vec3_dot (⟨F32.nan, 0, 0⟩ : vec3 F32) ⟨0, 0, 1⟩
      * _vec3_dot (⟨F32.nan, 0, 0⟩ : vec3 F32) ⟨0, 0, 1⟩) ≤ 0) := by
  refine ⟨?_, ?_, ?_, ?_, ?_, ?_, ?_, ?_, ?_, ?_, ?_⟩
  · simp only [vec3.toRat, F32.dyadic_neg_one_13]
    norm_num [F32.toRat, One.one, Zero.zero]
  · norm_num [vec3.toRat, F32.toRat, One.one, Zero.zero]
  · norm_num [F32.toRat, One.one]
  · simp only [vec3.toRat, F32.dyadic_neg_one_13]
    norm_num [F32.toRat, One.one, Zero.zero, _vec3_dot]
  · decide!
  · simp only [vec3.toRat, F32.ofInt_24929, F32.ofInt_16777216]
    norm_num [F32.toRat, One.one]
  · simp only [vec3.toRat, F32.ofInt_673, F32.ofInt_neg_one]
    norm_num [F32.toRat]
  · simp only [vec3.toRat, F32.ofInt_24929, F32.ofInt_16777216, F32.ofInt_673,
      F32.ofInt_neg_one]
    norm_num [F32.toRat, One.one, _vec3_dot]
  · decide!
  · decide!
  · decide!

/-- C3, amended.  In single precision `vec3_refract` returns false exactly when
the discriminant as the code computes it,
`discr = 1.0f - nint*nint*(1.0f - dt*dt)` with `dt = _vec3_dot(v, n)` and every
operation rounded, fails the test `discr > 0`, that is when it is NaN or at
most 0; it returns true exactly when the computed `discr` is greater than 0.
In exact arithmetic this is the claim's condition: false exactly when
`1 - eta^2*(1 - (v·n)^2) <= 0`, true exactly when it is positive. -/
theorem refract_false_iff (sqrtf32 : F32 → F32) (v32 n32 : vec3 F32) (eta32 : F32)
    (out32 : vec3 F32) (sqrtf : α → α) (v n : vec3 α) (eta : α) (out : vec3 α) :
    ((vec3_refract sqrtf32 v32 n32 eta32 out32).1 = false ↔
      (1 - eta32 * eta32 * (1 - _vec3_dot v32 n32 * _vec3_dot v32 n32) = F32.nan ∨
        1 - eta32 * eta32 * (1 - _vec3_dot v32 n32 * _vec3_dot v32 n32) ≤ 0)) ∧
    ((vec3_refract sqrtf32 v32 n32 eta32 out32).1 = true ↔
      1 - eta32 * eta32 * (1 - _vec3_dot v32 n32 * _vec3_dot v32 n32) > 0) ∧
    ((vec3_refract sqrtf v n eta out).1 = false ↔
      1 - eta ^ 2 * (1 - (_vec3_dot v n) ^ 2) ≤ 0) ∧
    ((vec3_refract sqrtf v n eta out).1 = true ↔
      0 < 1 - eta ^ 2 * (1 - (_vec3_dot v n) ^ 2)) := by
  refine ⟨?_, refract_flag_true_iff sqrtf32 v32 n32 eta32 out32,
    (refract_flag_exact sqrtf v n eta out).1, (refract_flag_exact sqrtf v n eta out).2⟩
  rw [refract_flag_false_iff sqrtf32 v32 n32 eta32 out32]
  exact F32.not_pos_iff _

/-- C15, as stated, fails in single precision.  At `v = (1, 0, -2^-13)`,
`n = (0, 0, 1)`, `eta = 1` the product `v·n = -2^-13` is negative, exactly and as
computed, yet the call returns false and leaves the slot `(1, 1, 1)` as it was:
`1.0f - dt*dt` rounds to `1.0f`, so the computed discriminant is 0. -/
theorem refract_eta_one_float :
    vec3.toRat ⟨1, 0, F32.dyadic (-1) 13⟩ = ⟨1, 0, -1/8192⟩ ∧
    vec3.toRat ⟨0, 0, 1⟩ = ⟨0, 0, 1⟩ ∧
    _vec3_dot (vec3.toRat ⟨1, 0, F32.dyadic (-1) 13⟩) (vec3.toRat ⟨0, 0, 1⟩) < 0 ∧
    _vec3_dot (⟨1, 0, F32.dyadic (-1) 13⟩ : vec3 F32) ⟨0, 0, 1⟩ = F32.dyadic (-1) 13 ∧
    _vec3_dot (⟨1, 0, F32.dyadic (-1) 13⟩ : vec3 F32) ⟨0, 0, 1⟩ < 0 ∧
    (1 : F32) - F32.dyadic (-1) 13 * F32.dyadic (-1) 13 = 1 ∧
    vec3_refract F32.sqrt ⟨1, 0, F32.dyadic (-1) 13⟩ ⟨0, 0, 1⟩ 1 ⟨1, 1, 1⟩
      = (false, ⟨1, 1, 1⟩) := by
  refine ⟨?_, ?_, ?_, ?_, ?_, ?_, ?_⟩
  · simp only [vec3.toRat, F32.dyadic_neg_one_13]
    norm_num [F32.toRat, One.one, Zero.zero]
  · norm_num [vec3.toRat, F32.toRat, One.one, Zero.zero]
  · simp only [vec3.toRat, F32.dyadic_neg_one_13]
    norm_num [F32.toRat, One.one, Zero.zero, _vec3_dot]
  · decide!
  · decide!
  · decide!
  · decide!

end FloatTheorems

end Photon
